import Mathlib

/-!
Verification of the request middleware pipeline of the FastAPI service in
`src/nodejs_crud_api/src/api/main.py`.

The embedding models: JSON values, case-insensitive response/request header
maps, the ASGI receive channel (the body stream), requests and responses, the
three middleware classes defined in the source (`SecurityHeadersMiddleware`,
`RequestLoggingMiddleware`, `JSONSizeLimitMiddleware`), the centralized error
handlers (`json_error_response`, `validation_exception_handler`,
`unhandled_exception_handler`), the health-check route, and the `create_app`
middleware composition.  Framework-provided stages whose code is not part of
this repository (Starlette's `CORSMiddleware` and `GZipMiddleware`) are
modelled from the spec; each such definition says so in its doc comment.
-/

namespace Api

/-- JSON values, the content type of `JSONResponse` bodies. -/
inductive JValue where
  | null
  | bool (b : Bool)
  | num (n : Int)
  | str (s : String)
  | arr (elems : List JValue)
  | obj (fields : List (String × JValue))

/-- Field lookup in a JSON object field list (first match, exact key). -/
def lookupField : List (String × JValue) → String → Option JValue
  | [], _ => none
  | (k, v) :: rest, key => if k = key then some v else lookupField rest key

/-- Field lookup on a JSON value: `jGet (obj fields) k` finds key `k`. -/
def jGet : JValue → String → Option JValue
  | .obj fields, key => lookupField fields key
  | _, _ => none

/-- The keys of a JSON object, in order. -/
def jKeys : JValue → List String
  | .obj fields => fields.map Prod.fst
  | _ => []

/-- `startsWith needle xs`: `needle` is an initial segment of `xs`. -/
def startsWith : List Char → List Char → Bool
  | [], _ => true
  | _ :: _, [] => false
  | a :: as, b :: bs => a == b && startsWith as bs

/-- `containsSub needle xs`: `needle` occurs contiguously inside `xs`; this is
Python's `needle in haystack` on strings. -/
def containsSub (needle : List Char) : List Char → Bool
  | [] => startsWith needle []
  | b :: bs => startsWith needle (b :: bs) || containsSub needle bs

/-- Python's substring test `sub in s`. -/
def strContains (haystack sub : String) : Bool :=
  containsSub sub.toList haystack.toList

/-- Lower-case a header name, character by character. -/
def lowerChars (cs : List Char) : List Char := cs.map Char.toLower

/-- Case-insensitive equality of header names, as Starlette's
`Headers`/`MutableHeaders` compare them. -/
def headerNameEq (a b : String) : Bool := lowerChars a.toList == lowerChars b.toList

/-- Case-insensitive header lookup, as Starlette's `Headers`/`MutableHeaders`
perform it (header names compare case-insensitively). -/
def headerLookup : List (String × String) → String → Option String
  | [], _ => none
  | (k, v) :: rest, key => if headerNameEq k key then some v else headerLookup rest key

/-- `MutableHeaders.setdefault`: append the pair only when the key is absent
(case-insensitively); an existing value is never overwritten. -/
def headerSetdefault (hs : List (String × String)) (key value : String) : List (String × String) :=
  match headerLookup hs key with
  | some _ => hs
  | none => hs ++ [(key, value)]

/-- One ASGI `http.request` message: a body chunk and the `more_body` flag. -/
structure ReceiveMessage where
  body : List Nat
  more_body : Bool

/-- The request's receive channel.  `queue` is the original stream of
messages from the server; `constBody` is the channel installed by
`JSONSizeLimitMiddleware.dispatch` (`receive_with_body`), which answers every
call with the full buffered body and `more_body = False`. -/
inductive Receive where
  | queue (msgs : List ReceiveMessage)
  | constBody (body : List Nat)

/-- A single call to the receive channel: the message delivered and the state
of the channel afterwards.  An exhausted queue keeps answering an empty final
message; `constBody` always answers the full body with `more_body = False`. -/
def receiveOnce : Receive → ReceiveMessage × Receive
  | .queue [] => (⟨[], false⟩, .queue [])
  | .queue (m :: rest) => (m, .queue rest)
  | .constBody b => (⟨b, false⟩, .constBody b)

/-- Drain a message queue as `Request.body()` does: concatenate chunks until a
message with `more_body = False` arrives; return the bytes read and the
unconsumed remainder of the queue. -/
def streamRead : List ReceiveMessage → List Nat × List ReceiveMessage
  | [] => ([], [])
  | m :: rest =>
    if m.more_body then
      let r := streamRead rest
      (m.body ++ r.1, r.2)
    else (m.body, rest)

/-- `await request.body()`: read the full body from the receive channel,
returning the bytes and the channel state after the read. -/
def receiveRead : Receive → List Nat × Receive
  | .queue msgs => ((streamRead msgs).1, .queue (streamRead msgs).2)
  | .constBody b => (b, .constBody b)

/-- An HTTP request as the middleware sees it: method, path, headers, the
receive channel holding the body, and the optional client address. -/
structure Request where
  method : String
  path : String
  headers : List (String × String)
  receive : Receive
  client : Option String

/-- An HTTP response: status code, headers, JSON content. -/
structure Response where
  status_code : Nat
  headers : List (String × String)
  content : JValue

/-- Starlette's `JSONResponse`: the given status code and JSON content with a
`content-type: application/json` header. -/
def JSONResponse (status_code : Nat) (content : JValue) : Response :=
  { status_code := status_code
    headers := [("content-type", "application/json")]
    content := content }

/-- A failure propagating through the stack: either FastAPI's
`RequestValidationError` carrying `exc.errors()` (a list of structured field
errors), or any other exception, carried with its text. -/
inductive Failure where
  | requestValidationError (errors : List JValue)
  | otherException (message : String)

namespace JSONSizeLimitMiddleware

/-- The constructor default `max_bytes: int = 1 * 1024 * 1024`. -/
def default_max_bytes : Nat := 1 * 1024 * 1024

/-- The 413 response built by `JSONSizeLimitMiddleware.dispatch` when the body
exceeds the limit. -/
def payload_too_large (max_bytes : Nat) : Response :=
  JSONResponse 413 (.obj [("error", .obj
    [("message", .str "Payload too large"),
     ("code", .str "PAYLOAD_TOO_LARGE"),
     ("details", .obj [("limit_bytes", .num (max_bytes : Int))])])])

/-- The outcome of the stage before any delegation: either a short-circuit
response, or the (possibly modified) request handed to `call_next`. -/
inductive StepResult where
  | shortCircuit (response : Response)
  | delegate (request : Request)

/-- The body of `JSONSizeLimitMiddleware.dispatch` up to the final
`call_next`: for POST/PUT/PATCH requests whose `content-type` contains
`application/json` it reads the full body; over the limit it short-circuits
with the 413 envelope, otherwise it re-injects the buffered body as the
request's receive channel (`receive_with_body`) and delegates. -/
def step (max_bytes : Nat) (request : Request) : StepResult :=
  if request.method = "POST" ∨ request.method = "PUT" ∨ request.method = "PATCH" then
    let content_type := (headerLookup request.headers "content-type").getD ""
    if strContains content_type "application/json" then
      let body := (receiveRead request.receive).1
      if body.length > max_bytes then
        .shortCircuit (payload_too_large max_bytes)
      else
        .delegate { request with receive := .constBody body }
    else
      .delegate request
  else
    .delegate request

/-- `JSONSizeLimitMiddleware.dispatch`: short-circuit or delegate to
`call_next`. -/
def dispatch (max_bytes : Nat) (request : Request)
    (call_next : Request → Except Failure Response) : Except Failure Response :=
  match step max_bytes request with
  | .shortCircuit response => .ok response
  | .delegate request' => call_next request'

end JSONSizeLimitMiddleware

namespace SecurityHeadersMiddleware

/-- The five hardening headers set by `SecurityHeadersMiddleware.dispatch`,
in the order the source sets them. -/
def security_header_defaults : List (String × String) :=
  [("X-Content-Type-Options", "nosniff"),
   ("X-Frame-Options", "DENY"),
   ("X-XSS-Protection", "1; mode=block"),
   ("Referrer-Policy", "no-referrer"),
   ("Permissions-Policy", "geolocation=()")]

/-- The five `response.headers.setdefault` calls of
`SecurityHeadersMiddleware.dispatch`, in source order. -/
def applyDefaults (hs : List (String × String)) : List (String × String) :=
  headerSetdefault (headerSetdefault (headerSetdefault (headerSetdefault (headerSetdefault hs
    "X-Content-Type-Options" "nosniff")
    "X-Frame-Options" "DENY")
    "X-XSS-Protection" "1; mode=block")
    "Referrer-Policy" "no-referrer")
    "Permissions-Policy" "geolocation=()"

/-- `SecurityHeadersMiddleware.dispatch`: await the inner chain, then set the
five defaults on the response; a propagated failure passes through. -/
def dispatch (call_next : Request → Except Failure Response) (request : Request) :
    Except Failure Response :=
  match call_next request with
  | .ok response => .ok { response with headers := applyDefaults response.headers }
  | .error e => .error e

end SecurityHeadersMiddleware

/-- What one log line of `RequestLoggingMiddleware` reports about the outcome:
the response's status code (`logger.info`), or that an unhandled failure
occurred (`logger.exception`). -/
inductive LogOutcome where
  | status (code : Nat)
  | failure

/-- One log line of `RequestLoggingMiddleware`: method, path, client address,
elapsed milliseconds, and the outcome. -/
structure LogEntry where
  method : String
  path : String
  client : String
  duration_ms : Nat
  outcome : LogOutcome

namespace RequestLoggingMiddleware

/-- `RequestLoggingMiddleware.dispatch`.  `start` and `now` are the two
`time.time()` readings in milliseconds, `start` taken before delegating and
`now` when the inner chain returns or raises.  The result pairs the inner
outcome (a failure is re-raised unchanged) with the log lines emitted. -/
def dispatch (start now : Nat) (call_next : Request → Except Failure Response)
    (request : Request) : Except Failure Response × List LogEntry :=
  let method := request.method
  let path := request.path
  let client := request.client.getD "unknown"
  match call_next request with
  | .ok response =>
    (.ok response, [{ method := method, path := path, client := client,
                      duration_ms := now - start,
                      outcome := .status response.status_code }])
  | .error e =>
    (.error e, [{ method := method, path := path, client := client,
                  duration_ms := now - start, outcome := .failure }])

end RequestLoggingMiddleware

/-- `json_error_response` from the source: builds the error envelope
`{"error": {"message": ..., "code": ...}}` and adds the `details` key only
when `details` is truthy in Python (supplied and non-empty). -/
def json_error_response (status_code : Nat) (message : String) (code : String)
    (details : Option (List (String × JValue))) : Response :=
  let base := [("message", JValue.str message), ("code", JValue.str code)]
  let errorFields :=
    match details with
    | some d => if d.isEmpty then base else base ++ [("details", JValue.obj d)]
    | none => base
  JSONResponse status_code (.obj [("error", .obj errorFields)])

/-- The `RequestValidationError` handler registered in `create_app`. -/
def validation_exception_handler (errors : List JValue) : Response :=
  json_error_response 422 "Validation error" "VALIDATION_ERROR"
    (some [("errors", .arr errors)])

/-- The catch-all `Exception` handler registered in `create_app`; it ignores
the exception and returns a fixed generic envelope. -/
def unhandled_exception_handler (_exc : String) : Response :=
  json_error_response 500 "Internal server error" "INTERNAL_SERVER_ERROR" none

/-- The Error Translator assembled by the two `app.exception_handler`
registrations in `create_app`: structured validation failures go to
`validation_exception_handler`, every other failure to
`unhandled_exception_handler`. -/
def errorTranslator : Failure → Response
  | .requestValidationError errors => validation_exception_handler errors
  | .otherException msg => unhandled_exception_handler msg

/-- The spec's error-envelope shape
`{ error: { message: string, code: string, details?: mapping } }`, with the
`details` key present exactly when a details mapping is supplied.  Stated
from the spec, to be compared with what `errorTranslator` produces. -/
def envelopeBody (message code : String) (details : Option (List (String × JValue))) : JValue :=
  .obj [("error", .obj ([("message", .str message), ("code", .str code)] ++
    (match details with
     | some d => [("details", .obj d)]
     | none => [])))]

/-- The health-check handler registered on `GET /` in `create_app`. -/
def health_check : JValue := .obj [("message", .str "Healthy")]

/-- The route table of the app: the single registered route, `GET /`,
answering 200 with `health_check`; `none` when no route matches (the
framework's router, outside this repository, then takes over). -/
def app_routes (request : Request) : Option Response :=
  if request.method = "GET" ∧ request.path = "/" then
    some (JSONResponse 200 health_check)
  else none

/-- Modelled from the spec: the CORS headers added by Starlette's
`CORSMiddleware` (framework code, not under `src/`), configured in
`create_app` with origin `*`, credentials allowed, all methods and headers
allowed; per the spec the stage "unconditionally adds permissive cross-origin
headers to every outgoing response". -/
def cors_headers : List (String × String) :=
  [("Access-Control-Allow-Origin", "*"),
   ("Access-Control-Allow-Credentials", "true"),
   ("Access-Control-Allow-Methods", "*"),
   ("Access-Control-Allow-Headers", "*")]

/-- Modelled from the spec: the CORS stage adds the permissive cross-origin
headers to the outgoing response. -/
def corsAddHeaders (hs : List (String × String)) : List (String × String) :=
  hs ++ cors_headers

/-- Does the client advertise gzip support (`accept-encoding` contains
`gzip`)? -/
def clientAcceptsGzip (request : Request) : Bool :=
  strContains ((headerLookup request.headers "accept-encoding").getD "") "gzip"

/-- Modelled from the spec: Starlette's `GZipMiddleware` (framework code, not
under `src/`), configured in `create_app` with `minimum_size=1000`.  When the
body exceeds the configured minimum size and the client advertises support it
transforms the body into a compressed encoding (abstracted by `bodySize` and
`compress`) and adds the `content-encoding` header; otherwise it passes the
response through unchanged. -/
def gzipApply (minimum_size : Nat) (bodySize : JValue → Nat) (compress : JValue → JValue)
    (accepts : Bool) (response : Response) : Response :=
  if accepts ∧ minimum_size < bodySize response.content then
    { response with content := compress response.content,
                    headers := response.headers ++ [("content-encoding", "gzip")] }
  else response

/-- The pipeline assembled by `create_app`, outermost first: CORS, gzip,
security headers, request logging, JSON size limit, then the terminal
`handler`.  Per the spec the Error Translator is the outermost error
boundary, catching failures from any stage, while the CORS stage adds its
headers to every outgoing response; the CORS stage itself never raises, so
translation sits directly inside it (modelled from the spec: the
framework-side wiring of the exception handlers is not under `src/`).
Returns the response sent to the client and the log lines emitted. -/
def create_app_handle (max_bytes minimum_size start now : Nat)
    (bodySize : JValue → Nat) (compress : JValue → JValue)
    (handler : Request → Except Failure Response) (request : Request) :
    Response × List LogEntry :=
  let logged := RequestLoggingMiddleware.dispatch start now
    (fun r => JSONSizeLimitMiddleware.dispatch max_bytes r handler) request
  let secured : Except Failure Response :=
    SecurityHeadersMiddleware.dispatch (fun _ => logged.1) request
  let gzipped : Except Failure Response :=
    match secured with
    | .ok response => .ok (gzipApply minimum_size bodySize compress (clientAcceptsGzip request) response)
    | .error e => .error e
  let translated : Response :=
    match gzipped with
    | .ok response => response
    | .error e => errorTranslator e
  ({ translated with headers := corsAddHeaders translated.headers }, logged.2)

/-! Concrete inputs used by the witness theorems. -/

/-- Concrete request: limit 10, body of 11 bytes. -/
def reqC1 : Request :=
  { method := "POST", path := "/items",
    headers := [("content-type", "application/json")],
    receive := .queue [{ body := List.replicate 11 7, more_body := false }],
    client := none }

/-- Concrete request: limit 10, body of 10 bytes split in two chunks. -/
def reqC2 : Request :=
  { method := "PUT", path := "/items/1",
    headers := [("Content-Type", "application/json; charset=utf-8")],
    receive := .queue [{ body := List.replicate 4 1, more_body := true },
                       { body := List.replicate 6 2, more_body := false }],
    client := some "127.0.0.1" }

/-- Concrete request: a 2-byte JSON body. -/
def reqC10 : Request :=
  { method := "PATCH", path := "/items/2",
    headers := [("content-type", "application/json")],
    receive := .queue [{ body := [123, 125], more_body := false }],
    client := none }

/-- Concrete request used by the security-headers and logging witnesses. -/
def reqPlain : Request :=
  { method := "GET", path := "/status",
    headers := [],
    receive := .queue [],
    client := some "10.0.0.1" }

/-- Concrete response used by the security-headers witness: one of the five
defaults is already set (with different casing) and one unrelated header is
present. -/
def respPreset : Response :=
  { status_code := 204,
    headers := [("x-frame-options", "SAMEORIGIN"), ("X-Custom", "1")],
    content := .null }

/-- Concrete GET `/` request for the health-check witness. -/
def reqHealth : Request :=
  { method := "GET", path := "/",
    headers := [("accept", "application/json")],
    receive := .queue [],
    client := some "192.168.0.5" }

/-!  ## Theorems  -/

/-- Looking a key up in an appended header list: the first list wins. -/
theorem headerLookup_append (hs l : List (String × String)) (key : String) :
    headerLookup (hs ++ l) key =
      match headerLookup hs key with
      | some v => some v
      | none => headerLookup l key := by
  induction hs with
  | nil => rfl
  | cons p rest ih =>
    obtain ⟨k, v⟩ := p
    by_cases h : headerNameEq k key = true
    · simp [headerLookup, h]
    · simp only [Bool.not_eq_true] at h
      simp [headerLookup, h, ih]

/-- Header-name comparison is reflexive. -/
theorem headerNameEq_self (a : String) : headerNameEq a a = true := by
  simp [headerNameEq]

/-- `setdefault` makes the key present, keeping an existing value. -/
theorem headerSetdefault_lookup_self (hs : List (String × String)) (key value : String) :
    headerLookup (headerSetdefault hs key value) key =
      some ((headerLookup hs key).getD value) := by
  unfold headerSetdefault
  cases h : headerLookup hs key with
  | some v => simp [h]
  | none => simp [headerLookup_append, h, headerLookup, headerNameEq_self]

/-- `setdefault` leaves every other key's lookup unchanged. -/
theorem headerSetdefault_lookup_other (hs : List (String × String)) (key value k' : String)
    (h : headerNameEq key k' = false) :
    headerLookup (headerSetdefault hs key value) k' = headerLookup hs k' := by
  unfold headerSetdefault
  cases hk : headerLookup hs key with
  | some v => rfl
  | none =>
    rw [headerLookup_append]
    cases h' : headerLookup hs k' with
    | some v => rfl
    | none => simp [headerLookup, h]

/-- C1: for every POST/PUT/PATCH request whose content-type contains
`application/json` and whose body length strictly exceeds the configured
limit, the size-limit stage short-circuits with status 413, code
`PAYLOAD_TOO_LARGE` and `details.limit_bytes` equal to the limit, and no
later stage or the terminal handler is invoked (the result is the same for
every `call_next`). -/
theorem size_limit_rejects_oversized_body (max_bytes : Nat) (request : Request)
    (hm : request.method = "POST" ∨ request.method = "PUT" ∨ request.method = "PATCH")
    (hct : strContains ((headerLookup request.headers "content-type").getD "") "application/json" = true)
    (hlen : (receiveRead request.receive).1.length > max_bytes) :
    JSONSizeLimitMiddleware.step max_bytes request =
      .shortCircuit (JSONSizeLimitMiddleware.payload_too_large max_bytes) ∧
    (∀ call_next, JSONSizeLimitMiddleware.dispatch max_bytes request call_next =
      .ok (JSONSizeLimitMiddleware.payload_too_large max_bytes)) ∧
    (JSONSizeLimitMiddleware.payload_too_large max_bytes).status_code = 413 ∧
    jGet ((jGet (JSONSizeLimitMiddleware.payload_too_large max_bytes).content "error").getD .null)
      "code" = some (.str "PAYLOAD_TOO_LARGE") ∧
    jGet ((jGet ((jGet (JSONSizeLimitMiddleware.payload_too_large max_bytes).content "error").getD
      .null) "details").getD .null) "limit_bytes" = some (.num (max_bytes : Int)) := by
  have hstep : JSONSizeLimitMiddleware.step max_bytes request =
      .shortCircuit (JSONSizeLimitMiddleware.payload_too_large max_bytes) := by
    unfold JSONSizeLimitMiddleware.step
    rw [if_pos hm]
    simp only [hct, hlen, if_true]
  refine ⟨hstep, ?_, rfl, rfl, rfl⟩
  intro call_next
  unfold JSONSizeLimitMiddleware.dispatch
  rw [hstep]

/-- Witness for C1 at limit 10 and an 11-byte body. -/
theorem size_limit_rejects_oversized_body_witness :
    JSONSizeLimitMiddleware.step 10 reqC1 =
      .shortCircuit (JSONSizeLimitMiddleware.payload_too_large 10) ∧
    (∀ call_next, JSONSizeLimitMiddleware.dispatch 10 reqC1 call_next =
      .ok (JSONSizeLimitMiddleware.payload_too_large 10)) ∧
    (JSONSizeLimitMiddleware.payload_too_large 10).status_code = 413 ∧
    jGet ((jGet (JSONSizeLimitMiddleware.payload_too_large 10).content "error").getD .null)
      "code" = some (.str "PAYLOAD_TOO_LARGE") ∧
    jGet ((jGet ((jGet (JSONSizeLimitMiddleware.payload_too_large 10).content "error").getD
      .null) "details").getD .null) "limit_bytes" = some (.num (10 : Int)) :=
  size_limit_rejects_oversized_body 10 reqC1 (Or.inl rfl) (by decide) (by decide)

/-- C2: for every POST/PUT/PATCH request whose content-type contains
`application/json` and whose body length is at most the configured limit, the
size-limit stage delegates to the rest of the chain, handing it a request
whose body reads back byte-for-byte as the original body (the stage's read is
non-destructive downstream). -/
theorem size_limit_delegates_within_limit (max_bytes : Nat) (request : Request)
    (hm : request.method = "POST" ∨ request.method = "PUT" ∨ request.method = "PATCH")
    (hct : strContains ((headerLookup request.headers "content-type").getD "") "application/json" = true)
    (hlen : (receiveRead request.receive).1.length ≤ max_bytes) :
    JSONSizeLimitMiddleware.step max_bytes request =
      .delegate { request with receive := .constBody (receiveRead request.receive).1 } ∧
    (receiveRead (Receive.constBody (receiveRead request.receive).1)).1 =
      (receiveRead request.receive).1 ∧
    ∀ call_next, JSONSizeLimitMiddleware.dispatch max_bytes request call_next =
      call_next { request with receive := .constBody (receiveRead request.receive).1 } := by
  have hnot : ¬ ((receiveRead request.receive).1.length > max_bytes) := by omega
  have hstep : JSONSizeLimitMiddleware.step max_bytes request =
      .delegate { request with receive := .constBody (receiveRead request.receive).1 } := by
    unfold JSONSizeLimitMiddleware.step
    rw [if_pos hm]
    simp only [hct, hnot, if_true, if_false]
  refine ⟨hstep, rfl, ?_⟩
  intro call_next
  unfold JSONSizeLimitMiddleware.dispatch
  rw [hstep]

/-- Witness for C2 at limit 10 and a 10-byte body. -/
theorem size_limit_delegates_within_limit_witness :
    JSONSizeLimitMiddleware.step 10 reqC2 =
      .delegate { reqC2 with receive := .constBody (receiveRead reqC2.receive).1 } ∧
    (receiveRead (Receive.constBody (receiveRead reqC2.receive).1)).1 =
      (receiveRead reqC2.receive).1 ∧
    ∀ call_next, JSONSizeLimitMiddleware.dispatch 10 reqC2 call_next =
      call_next { reqC2 with receive := .constBody (receiveRead reqC2.receive).1 } :=
  size_limit_delegates_within_limit 10 reqC2 (Or.inr (Or.inl rfl)) (by decide) (by decide)

/-- C10: after the size-limit stage admits a within-limit JSON body, the
delegated request's receive channel is the buffered-body channel
(`receive_with_body`): every single call to it returns the full body with
`more_body = false`, and a full body read returns the same bytes and leaves
the channel unchanged, so a second read returns the same bytes as the
first. -/
theorem size_limit_reinjected_body_idempotent (max_bytes : Nat) (request : Request)
    (hm : request.method = "POST" ∨ request.method = "PUT" ∨ request.method = "PATCH")
    (hct : strContains ((headerLookup request.headers "content-type").getD "") "application/json" = true)
    (hlen : (receiveRead request.receive).1.length ≤ max_bytes) :
    JSONSizeLimitMiddleware.step max_bytes request =
      .delegate { request with receive := .constBody (receiveRead request.receive).1 } ∧
    (∀ body : List Nat, receiveOnce (.constBody body) = (⟨body, false⟩, .constBody body)) ∧
    (∀ body : List Nat, receiveRead (.constBody body) = (body, .constBody body)) ∧
    (∀ body : List Nat,
      receiveRead ((receiveRead (Receive.constBody body)).2) =
        receiveRead (Receive.constBody body)) := by
  have hnot : ¬ ((receiveRead request.receive).1.length > max_bytes) := by omega
  have hstep : JSONSizeLimitMiddleware.step max_bytes request =
      .delegate { request with receive := .constBody (receiveRead request.receive).1 } := by
    unfold JSONSizeLimitMiddleware.step
    rw [if_pos hm]
    simp only [hct, hnot, if_true, if_false]
  exact ⟨hstep, fun _ => rfl, fun _ => rfl, fun _ => rfl⟩

/-- Witness for C10 at limit 1048576 and a 2-byte body. -/
theorem size_limit_reinjected_body_idempotent_witness :
    JSONSizeLimitMiddleware.step JSONSizeLimitMiddleware.default_max_bytes reqC10 =
      .delegate { reqC10 with receive := .constBody (receiveRead reqC10.receive).1 } ∧
    (∀ body : List Nat, receiveOnce (.constBody body) = (⟨body, false⟩, .constBody body)) ∧
    (∀ body : List Nat, receiveRead (.constBody body) = (body, .constBody body)) ∧
    (∀ body : List Nat,
      receiveRead ((receiveRead (Receive.constBody body)).2) =
        receiveRead (Receive.constBody body)) :=
  size_limit_reinjected_body_idempotent JSONSizeLimitMiddleware.default_max_bytes reqC10
    (Or.inr (Or.inr rfl)) (by decide) (by decide)

/-- C6: the security-headers stage sets each of the five hardening headers
exactly when absent: after dispatch each of the five is present, its value
being the one the response already carried when there was one (never
overwritten) and the fixed default otherwise; the lookup of every other
header name is unchanged; and a propagating failure passes through the stage
untouched. -/
theorem security_headers_set_if_absent
    (call_next : Request → Except Failure Response) (request : Request) (response : Response)
    (h : call_next request = .ok response) :
    SecurityHeadersMiddleware.dispatch call_next request =
      .ok { response with
            headers := SecurityHeadersMiddleware.applyDefaults response.headers } ∧
    (∀ kv ∈ SecurityHeadersMiddleware.security_header_defaults,
      headerLookup (SecurityHeadersMiddleware.applyDefaults response.headers) kv.1 =
        some ((headerLookup response.headers kv.1).getD kv.2)) ∧
    (∀ key, (∀ kv ∈ SecurityHeadersMiddleware.security_header_defaults,
        headerNameEq kv.1 key = false) →
      headerLookup (SecurityHeadersMiddleware.applyDefaults response.headers) key =
        headerLookup response.headers key) := by
  refine ⟨?_, ?_, ?_⟩
  · unfold SecurityHeadersMiddleware.dispatch
    rw [h]
  · intro kv hkv
    fin_cases hkv <;>
      simp only [SecurityHeadersMiddleware.applyDefaults] <;>
      (repeat first
        | rw [headerSetdefault_lookup_other _ _ _ _ (by decide)]
        | rw [headerSetdefault_lookup_self])
  · intro key hk
    unfold SecurityHeadersMiddleware.applyDefaults
    rw [headerSetdefault_lookup_other _ _ _ _
          (hk ("Permissions-Policy", "geolocation=()") (by decide)),
        headerSetdefault_lookup_other _ _ _ _
          (hk ("Referrer-Policy", "no-referrer") (by decide)),
        headerSetdefault_lookup_other _ _ _ _
          (hk ("X-XSS-Protection", "1; mode=block") (by decide)),
        headerSetdefault_lookup_other _ _ _ _
          (hk ("X-Frame-Options", "DENY") (by decide)),
        headerSetdefault_lookup_other _ _ _ _
          (hk ("X-Content-Type-Options", "nosniff") (by decide))]

/-- Witness for C6: a response that already carries one of the five headers
(in different casing) and an unrelated custom header. -/
theorem security_headers_set_if_absent_witness :
    SecurityHeadersMiddleware.dispatch (fun _ => .ok respPreset) reqPlain =
      .ok { respPreset with
            headers := SecurityHeadersMiddleware.applyDefaults respPreset.headers } ∧
    (∀ kv ∈ SecurityHeadersMiddleware.security_header_defaults,
      headerLookup (SecurityHeadersMiddleware.applyDefaults respPreset.headers) kv.1 =
        some ((headerLookup respPreset.headers kv.1).getD kv.2)) ∧
    (∀ key, (∀ kv ∈ SecurityHeadersMiddleware.security_header_defaults,
        headerNameEq kv.1 key = false) →
      headerLookup (SecurityHeadersMiddleware.applyDefaults respPreset.headers) key =
        headerLookup respPreset.headers key) :=
  security_headers_set_if_absent (fun _ => .ok respPreset) reqPlain respPreset rfl

/-- C8: the logging stage computes the elapsed time from a start reading
taken before delegating; when the inner chain returns a response it emits one
log line with method, path, client, elapsed milliseconds and the status code,
returning the response unchanged; when the inner chain raises it emits one
log line with method, path, client, elapsed milliseconds and a
failure marker, and re-raises the very same failure. -/
theorem logging_logs_and_rethrows (start now : Nat)
    (call_next : Request → Except Failure Response) (request : Request) :
    (∀ response, call_next request = .ok response →
      RequestLoggingMiddleware.dispatch start now call_next request =
        (.ok response,
         [{ method := request.method, path := request.path,
            client := request.client.getD "unknown", duration_ms := now - start,
            outcome := .status response.status_code }])) ∧
    (∀ e, call_next request = .error e →
      RequestLoggingMiddleware.dispatch start now call_next request =
        (.error e,
         [{ method := request.method, path := request.path,
            client := request.client.getD "unknown", duration_ms := now - start,
            outcome := .failure }])) := by
  constructor
  · intro response h
    unfold RequestLoggingMiddleware.dispatch
    rw [h]
  · intro e h
    unfold RequestLoggingMiddleware.dispatch
    rw [h]

/-- Witness for C8: one successful and one failing inner chain, at start time
2 ms and completion time 5 ms. -/
theorem logging_logs_and_rethrows_witness :
    RequestLoggingMiddleware.dispatch 2 5 (fun _ => .ok respPreset) reqPlain =
      (.ok respPreset,
       [{ method := reqPlain.method, path := reqPlain.path,
          client := reqPlain.client.getD "unknown", duration_ms := 5 - 2,
          outcome := .status respPreset.status_code }]) ∧
    RequestLoggingMiddleware.dispatch 2 5
        (fun _ => .error (.otherException "boom")) reqPlain =
      (.error (.otherException "boom"),
       [{ method := reqPlain.method, path := reqPlain.path,
          client := reqPlain.client.getD "unknown", duration_ms := 5 - 2,
          outcome := .failure }]) :=
  ⟨(logging_logs_and_rethrows 2 5 (fun _ => .ok respPreset) reqPlain).1 respPreset rfl,
   (logging_logs_and_rethrows 2 5 (fun _ => .error (.otherException "boom")) reqPlain).2
     (.otherException "boom") rfl⟩

/-- C9: every GET request to `/` is answered by the health-check route with
status 200 and body `{"message": "Healthy"}`; the handler consumes nothing
from the request (any two GET `/` requests get the same response) and has no
side effects (it is a pure constant). -/
theorem health_check_route (request : Request)
    (h : request.method = "GET" ∧ request.path = "/") :
    app_routes request = some (JSONResponse 200 health_check) ∧
    (JSONResponse 200 health_check).status_code = 200 ∧
    (JSONResponse 200 health_check).content = .obj [("message", .str "Healthy")] ∧
    (∀ request' : Request, request'.method = "GET" → request'.path = "/" →
      app_routes request' = app_routes request) := by
  have h1 : app_routes request = some (JSONResponse 200 health_check) := by
    unfold app_routes
    rw [if_pos h]
  refine ⟨h1, rfl, rfl, ?_⟩
  intro r hm hp
  unfold app_routes
  rw [if_pos ⟨hm, hp⟩, if_pos h]

/-- Witness for C9 at a concrete GET `/` request. -/
theorem health_check_route_witness :
    app_routes reqHealth = some (JSONResponse 200 health_check) ∧
    (JSONResponse 200 health_check).status_code = 200 ∧
    (JSONResponse 200 health_check).content = .obj [("message", .str "Healthy")] ∧
    (∀ request' : Request, request'.method = "GET" → request'.path = "/" →
      app_routes request' = app_routes reqHealth) :=
  health_check_route reqHealth ⟨rfl, rfl⟩

/-- A failure propagating out of the inner chain reaches the Error
Translator: the client response is the translated envelope with the CORS
headers added, and the logging stage has recorded the failure. -/
theorem create_app_handle_error (max_bytes minimum_size start now : Nat)
    (bodySize : JValue → Nat) (compress : JValue → JValue)
    (handler : Request → Except Failure Response) (request : Request) (e : Failure)
    (h : JSONSizeLimitMiddleware.dispatch max_bytes request handler = .error e) :
    create_app_handle max_bytes minimum_size start now bodySize compress handler request =
      ({ errorTranslator e with headers := corsAddHeaders (errorTranslator e).headers },
       [{ method := request.method, path := request.path,
          client := request.client.getD "unknown", duration_ms := now - start,
          outcome := .failure }]) := by
  unfold create_app_handle RequestLoggingMiddleware.dispatch SecurityHeadersMiddleware.dispatch
  simp [h]

/-- C3: when a failure that is not a structured validation failure reaches
the Error Translator, the client receives status 500 with the generic
`INTERNAL_SERVER_ERROR` envelope; the body is a fixed constant — independent
of the exception — so it carries no stack trace and no exception text, and no
`details`. -/
theorem unhandled_failure_translated_to_500 (max_bytes minimum_size start now : Nat)
    (bodySize : JValue → Nat) (compress : JValue → JValue)
    (handler : Request → Except Failure Response) (request : Request) (msg : String)
    (h : JSONSizeLimitMiddleware.dispatch max_bytes request handler =
      .error (.otherException msg)) :
    (create_app_handle max_bytes minimum_size start now bodySize compress handler request).1 =
      { status_code := 500,
        headers := corsAddHeaders [("content-type", "application/json")],
        content := envelopeBody "Internal server error" "INTERNAL_SERVER_ERROR" none } ∧
    jGet ((jGet (envelopeBody "Internal server error" "INTERNAL_SERVER_ERROR" none)
      "error").getD .null) "code" = some (.str "INTERNAL_SERVER_ERROR") ∧
    jGet ((jGet (envelopeBody "Internal server error" "INTERNAL_SERVER_ERROR" none)
      "error").getD .null) "details" = none := by
  rw [create_app_handle_error max_bytes minimum_size start now bodySize compress
        handler request _ h]
  exact ⟨rfl, rfl, rfl⟩

/-- Witness for C3: a handler that raises a generic exception. -/
theorem unhandled_failure_translated_to_500_witness :
    (create_app_handle 10 1000 0 3 (fun _ => 0) id
      (fun _ => .error (.otherException "boom")) reqPlain).1 =
      { status_code := 500,
        headers := corsAddHeaders [("content-type", "application/json")],
        content := envelopeBody "Internal server error" "INTERNAL_SERVER_ERROR" none } ∧
    jGet ((jGet (envelopeBody "Internal server error" "INTERNAL_SERVER_ERROR" none)
      "error").getD .null) "code" = some (.str "INTERNAL_SERVER_ERROR") ∧
    jGet ((jGet (envelopeBody "Internal server error" "INTERNAL_SERVER_ERROR" none)
      "error").getD .null) "details" = none :=
  unhandled_failure_translated_to_500 10 1000 0 3 (fun _ => 0) id
    (fun _ => .error (.otherException "boom")) reqPlain "boom" rfl

/-- C4: when a structured validation failure reaches the Error Translator,
the client receives status 422 with the `VALIDATION_ERROR` envelope whose
`details.errors` is exactly the structured list of field errors carried by
the failure; the body is determined by that list alone, so no internal trace
text appears in it. -/
theorem validation_failure_translated_to_422 (max_bytes minimum_size start now : Nat)
    (bodySize : JValue → Nat) (compress : JValue → JValue)
    (handler : Request → Except Failure Response) (request : Request) (errs : List JValue)
    (h : JSONSizeLimitMiddleware.dispatch max_bytes request handler =
      .error (.requestValidationError errs)) :
    (create_app_handle max_bytes minimum_size start now bodySize compress handler request).1 =
      { status_code := 422,
        headers := corsAddHeaders [("content-type", "application/json")],
        content := envelopeBody "Validation error" "VALIDATION_ERROR"
          (some [("errors", .arr errs)]) } ∧
    jGet ((jGet ((jGet (envelopeBody "Validation error" "VALIDATION_ERROR"
        (some [("errors", .arr errs)])) "error").getD .null) "details").getD .null)
      "errors" = some (.arr errs) := by
  rw [create_app_handle_error max_bytes minimum_size start now bodySize compress
        handler request _ h]
  exact ⟨rfl, rfl⟩

/-- Witness for C4: a handler that raises a validation failure carrying one
structured field error. -/
theorem validation_failure_translated_to_422_witness :
    (create_app_handle 10 1000 0 3 (fun _ => 0) id
      (fun _ => .error (.requestValidationError
        [.obj [("loc", .arr [.str "body"]), ("msg", .str "field required")]])) reqPlain).1 =
      { status_code := 422,
        headers := corsAddHeaders [("content-type", "application/json")],
        content := envelopeBody "Validation error" "VALIDATION_ERROR"
          (some [("errors", .arr
            [.obj [("loc", .arr [.str "body"]), ("msg", .str "field required")]])]) } ∧
    jGet ((jGet ((jGet (envelopeBody "Validation error" "VALIDATION_ERROR"
        (some [("errors", .arr
          [.obj [("loc", .arr [.str "body"]), ("msg", .str "field required")]])]))
        "error").getD .null) "details").getD .null)
      "errors" = some (.arr
        [.obj [("loc", .arr [.str "body"]), ("msg", .str "field required")]]) :=
  validation_failure_translated_to_422 10 1000 0 3 (fun _ => 0) id
    (fun _ => .error (.requestValidationError
      [.obj [("loc", .arr [.str "body"]), ("msg", .str "field required")]])) reqPlain
    [.obj [("loc", .arr [.str "body"]), ("msg", .str "field required")]] rfl

/-- C5: every response leaving the assembled pipeline — normal, short-circuit
or error-translated alike — carries the four permissive CORS headers, for
every terminal handler and every request. -/
theorem cors_headers_on_every_response (max_bytes minimum_size start now : Nat)
    (bodySize : JValue → Nat) (compress : JValue → JValue)
    (handler : Request → Except Failure Response) (request : Request) :
    ("Access-Control-Allow-Origin", "*") ∈
      (create_app_handle max_bytes minimum_size start now bodySize compress handler request).1.headers ∧
    ("Access-Control-Allow-Credentials", "true") ∈
      (create_app_handle max_bytes minimum_size start now bodySize compress handler request).1.headers ∧
    ("Access-Control-Allow-Methods", "*") ∈
      (create_app_handle max_bytes minimum_size start now bodySize compress handler request).1.headers ∧
    ("Access-Control-Allow-Headers", "*") ∈
      (create_app_handle max_bytes minimum_size start now bodySize compress handler request).1.headers := by
  refine ⟨?_, ?_, ?_, ?_⟩ <;>
    exact List.mem_append_right _ (by simp [cors_headers])

/-- C7: every error response produced by the Error Translator is exactly the
spec's envelope shape `{ error: { message, code, details? } }` — no other
top-level or nested keys — and the `details` key is present exactly when the
handler supplied a details mapping (the validation handler supplies one, the
catch-all handler does not). -/
theorem error_translator_envelope_shape :
    (∀ errs, errorTranslator (.requestValidationError errs) =
      JSONResponse 422 (envelopeBody "Validation error" "VALIDATION_ERROR"
        (some [("errors", .arr errs)]))) ∧
    (∀ msg, errorTranslator (.otherException msg) =
      JSONResponse 500 (envelopeBody "Internal server error" "INTERNAL_SERVER_ERROR" none)) ∧
    (∀ message code details, jKeys (envelopeBody message code details) = ["error"]) ∧
    (∀ message code, jKeys ((jGet (envelopeBody message code none) "error").getD .null) =
      ["message", "code"]) ∧
    (∀ message code details,
      jKeys ((jGet (envelopeBody message code (some details)) "error").getD .null) =
        ["message", "code", "details"]) :=
  ⟨fun _ => rfl, fun _ => rfl, fun _ _ _ => rfl, fun _ _ => rfl, fun _ _ _ => rfl⟩

end Api
